import Mathlib

/-!
Verification of the configuration schema in `src/trl/trainer/adpo_config.py`
(repository TRL-ADPO).  The file declares a single Python `@dataclass`
`ADPOConfig(GRPOConfig)` consisting of defaulted fields; the dataclass-generated
constructor assigns each supplied argument (or the field default) without any
runtime validation — Python does not enforce `Literal[...]` annotations at
construction time.  We embed the record, its defaults, its constructor, and
Python attribute access/assignment, and settle the claims about defaults,
(non-)validation, inheritance and the docstring/field disagreements.

Floats carry only literal default values here (no arithmetic is performed in
the source), so they are embedded as exact rationals.
-/

namespace ADPO

/-- Modelled from the spec: the base GRPO trainer configuration (file
`grpo_config.py` of this repository, imported by `adpo_config.py` but not
included under `src/`).  The spec and the docstring name the inherited fields
`beta`, `output_dir`, `num_generations` and `use_liger_kernel`; their base
defaults are not given, so representative concrete defaults are used.  The
theorems about inheritance depend only on construction reproducing these
defaults, not on their particular values. -/
structure GRPOBase where
  output_dir : String
  num_generations : Nat
  beta : ℚ
  use_liger_kernel : Bool
deriving Repr, DecidableEq

/-- Modelled from the spec: the default values of the base GRPO configuration
fields (unspecified by the spec; representative concrete values). -/
def grpoBaseDefaults : GRPOBase :=
  { output_dir := ""
    num_generations := 8
    beta := 0.04
    use_liger_kernel := false }

/-- Embedding of the dataclass `ADPOConfig(GRPOConfig)` from
`src/trl/trainer/adpo_config.py`, lines 21-156: the inherited base fields plus
the eleven ADPO-specific fields declared at lines 109-156, in source order. -/
structure ADPOConfig extends GRPOBase where
  tau : ℚ
  anchor_update_mode : String
  ema_alpha : ℚ
  kl_threshold : ℚ
  use_q_centering : Bool
  beta_anchor_kl : ℚ
  use_adaptive_tau : Bool
  adaptive_tau_alpha : ℚ
  adaptive_tau_min : ℚ
  beta_reward : ℚ
  drop_all_failed_prompts : Bool
deriving Repr, DecidableEq

/-- Keyword arguments of the dataclass-generated constructor: every field may
be supplied or omitted (`none` = omitted, taking the declared default). -/
structure ADPOOverrides where
  output_dir : Option String := none
  num_generations : Option Nat := none
  beta : Option ℚ := none
  use_liger_kernel : Option Bool := none
  tau : Option ℚ := none
  anchor_update_mode : Option String := none
  ema_alpha : Option ℚ := none
  kl_threshold : Option ℚ := none
  use_q_centering : Option Bool := none
  beta_anchor_kl : Option ℚ := none
  use_adaptive_tau : Option Bool := none
  adaptive_tau_alpha : Option ℚ := none
  adaptive_tau_min : Option ℚ := none
  beta_reward : Option ℚ := none
  drop_all_failed_prompts : Option Bool := none

/-- The dataclass-generated `__init__` of `ADPOConfig`: each field is set to
the supplied argument, or to its declared default when omitted.  The field
defaults are transcribed from `adpo_config.py` lines 109-156 (`tau` defaults
to `0.8` at line 110).  No validation and no derived-field computation is
performed: the generated constructor of a plain Python dataclass only assigns
the arguments, and `Literal` annotations are not checked at runtime. -/
def ADPOConfig.construct (o : ADPOOverrides) : ADPOConfig :=
  { output_dir := o.output_dir.getD grpoBaseDefaults.output_dir
    num_generations := o.num_generations.getD grpoBaseDefaults.num_generations
    beta := o.beta.getD grpoBaseDefaults.beta
    use_liger_kernel := o.use_liger_kernel.getD grpoBaseDefaults.use_liger_kernel
    tau := o.tau.getD 0.8
    anchor_update_mode := o.anchor_update_mode.getD "on_policy"
    ema_alpha := o.ema_alpha.getD 0.99
    kl_threshold := o.kl_threshold.getD 0.1
    use_q_centering := o.use_q_centering.getD true
    beta_anchor_kl := o.beta_anchor_kl.getD 0.0
    use_adaptive_tau := o.use_adaptive_tau.getD true
    adaptive_tau_alpha := o.adaptive_tau_alpha.getD 0.5
    adaptive_tau_min := o.adaptive_tau_min.getD 0.05
    beta_reward := o.beta_reward.getD 0.5
    drop_all_failed_prompts := o.drop_all_failed_prompts.getD false }

/-- Fallible view of construction.  Calling `ADPOConfig(...)` in Python either
raises or returns the object; since the dataclass constructor performs no
validation, it never raises for any field values, so this always returns
`Except.ok`. -/
def ADPOConfig.tryConstruct (o : ADPOOverrides) : Except String ADPOConfig :=
  Except.ok (ADPOConfig.construct o)

/-- The ADPO-specific field names declared in the class body of `ADPOConfig`
(`adpo_config.py` lines 109-156), in declaration order. -/
def declaredFieldNames : List String :=
  ["tau", "anchor_update_mode", "ema_alpha", "kl_threshold", "use_q_centering",
   "beta_anchor_kl", "use_adaptive_tau", "adaptive_tau_alpha",
   "adaptive_tau_min", "beta_reward", "drop_all_failed_prompts"]

/-- The field names documented in the Args section of the class docstring
(`adpo_config.py` lines 38-63), in documentation order.  The docstring
documents only six of the eleven declared fields. -/
def docstringFieldNames : List String :=
  ["tau", "anchor_update_mode", "ema_alpha", "kl_threshold", "use_q_centering",
   "beta_anchor_kl"]

/-- The default value the class docstring states for `tau` (line 39:
defaults to 1.0). -/
def docstringTauDefault : ℚ := 1.0

/-- The default value the field declaration of `tau` carries (line 110). -/
def declaredTauDefault : ℚ := 0.8

/-- The four values admitted by the `Literal` annotation of
`anchor_update_mode` (line 113). -/
def anchorUpdateModes : List String :=
  ["fixed", "ema", "kl_triggered", "on_policy"]

/-- One entry per definition of the class `ADPOConfig` occurring in the
provided source file, recording the ADPO-specific field names and the declared
`tau` default of that definition.  The file `adpo_config.py` contains exactly
one class definition (lines 21-156). -/
def adpoClassDefinitions : List (List String × ℚ) :=
  [(declaredFieldNames, declaredTauDefault)]

/-- Runtime field names of the configuration object (for modelling Python
attribute access on the ADPO-specific fields). -/
inductive FieldName
  | tau | anchor_update_mode | ema_alpha | kl_threshold | use_q_centering
  | beta_anchor_kl | use_adaptive_tau | adaptive_tau_alpha | adaptive_tau_min
  | beta_reward | drop_all_failed_prompts
deriving Repr, DecidableEq

/-- Runtime values stored in the fields. -/
inductive FieldVal
  | ratVal (q : ℚ)
  | strVal (s : String)
  | boolVal (b : Bool)
deriving Repr, DecidableEq

/-- Python attribute read on the configuration object: returns the stored
value and has no side effect on a plain dataclass instance. -/
def ADPOConfig.getattr (c : ADPOConfig) : FieldName → FieldVal
  | .tau => .ratVal c.tau
  | .anchor_update_mode => .strVal c.anchor_update_mode
  | .ema_alpha => .ratVal c.ema_alpha
  | .kl_threshold => .ratVal c.kl_threshold
  | .use_q_centering => .boolVal c.use_q_centering
  | .beta_anchor_kl => .ratVal c.beta_anchor_kl
  | .use_adaptive_tau => .boolVal c.use_adaptive_tau
  | .adaptive_tau_alpha => .ratVal c.adaptive_tau_alpha
  | .adaptive_tau_min => .ratVal c.adaptive_tau_min
  | .beta_reward => .ratVal c.beta_reward
  | .drop_all_failed_prompts => .boolVal c.drop_all_failed_prompts

/-- Explicit field reassignment (Python attribute assignment with a
type-conforming value); a value of the wrong shape leaves the typed record
unchanged in this embedding. -/
def ADPOConfig.setattr (c : ADPOConfig) : FieldName → FieldVal → ADPOConfig
  | .tau, .ratVal q => { c with tau := q }
  | .anchor_update_mode, .strVal s => { c with anchor_update_mode := s }
  | .ema_alpha, .ratVal q => { c with ema_alpha := q }
  | .kl_threshold, .ratVal q => { c with kl_threshold := q }
  | .use_q_centering, .boolVal b => { c with use_q_centering := b }
  | .beta_anchor_kl, .ratVal q => { c with beta_anchor_kl := q }
  | .use_adaptive_tau, .boolVal b => { c with use_adaptive_tau := b }
  | .adaptive_tau_alpha, .ratVal q => { c with adaptive_tau_alpha := q }
  | .adaptive_tau_min, .ratVal q => { c with adaptive_tau_min := q }
  | .beta_reward, .boolVal _ => c
  | .beta_reward, .ratVal q => { c with beta_reward := q }
  | .drop_all_failed_prompts, .boolVal b => { c with drop_all_failed_prompts := b }
  | _, _ => c

/-- Operations the artifact exposes on a constructed configuration object:
attribute reads (the trainer's read access) and explicit field reassignment. -/
inductive ConfigOp
  | get (f : FieldName)
  | set (f : FieldName) (v : FieldVal)

/-- Effect of one operation on the configuration object: a read leaves the
object unchanged (a plain dataclass attribute read has no side effect); an
assignment stores the new value. -/
def stepOp (c : ADPOConfig) : ConfigOp → ADPOConfig
  | .get _ => c
  | .set f v => c.setattr f v

/-- A trace of operations applied in order. -/
def runOps (c : ADPOConfig) (ops : List ConfigOp) : ADPOConfig :=
  ops.foldl stepOp c

/-- Whether an operation is an explicit field reassignment. -/
def ConfigOp.isSet : ConfigOp → Bool
  | .get _ => false
  | .set _ _ => true

end ADPO

namespace ADPO

/-- C1: the claim (and the class's own docstring, line 39) says the default of
tau is 1.0, but the field declaration at line 110 stores 0.8: default
construction yields tau = 0.8, contradicting the documentation. -/
theorem c1_tau_default_contradicts_docstring :
    (ADPOConfig.construct {}).tau = declaredTauDefault ∧
    declaredTauDefault = 0.8 ∧ docstringTauDefault = 1.0 ∧
    (ADPOConfig.construct {}).tau ≠ docstringTauDefault := by
  refine ⟨rfl, rfl, rfl, ?_⟩
  norm_num [ADPOConfig.construct, docstringTauDefault]

/-- C2 counterexample: the string invalid_mode lies outside the four named
values, yet construction supplying it is not rejected: it succeeds and stores
the string, refuting the claim that other values fail. -/
theorem c2_rejection_counterexample :
    "invalid_mode" ∉ anchorUpdateModes ∧
    ADPOConfig.tryConstruct { anchor_update_mode := some "invalid_mode" } =
      Except.ok (ADPOConfig.construct { anchor_update_mode := some "invalid_mode" }) ∧
    (ADPOConfig.construct
        { anchor_update_mode := some "invalid_mode" }).anchor_update_mode =
      "invalid_mode" := by
  refine ⟨by decide, rfl, rfl⟩

/-- C2 (amended): construction with anchor_update_mode set to any of the four
named values succeeds and stores that value, and construction with any other
string also succeeds and stores it: no value is rejected. -/
theorem c2_amended_no_rejection (s : String) :
    ADPOConfig.tryConstruct { anchor_update_mode := some s } =
      Except.ok (ADPOConfig.construct { anchor_update_mode := some s }) ∧
    (ADPOConfig.construct { anchor_update_mode := some s }).anchor_update_mode = s :=
  ⟨rfl, rfl⟩

/-- C3: each remaining documented field has its documented default: every
construction omitting the field yields anchor_update_mode on_policy,
ema_alpha 0.99, kl_threshold 0.1, use_q_centering true, beta_anchor_kl 0.0,
beta_reward 0.5 and drop_all_failed_prompts false. -/
theorem c3_remaining_documented_defaults (o : ADPOOverrides) :
    (o.anchor_update_mode = none →
      (ADPOConfig.construct o).anchor_update_mode = "on_policy") ∧
    (o.ema_alpha = none → (ADPOConfig.construct o).ema_alpha = 0.99) ∧
    (o.kl_threshold = none → (ADPOConfig.construct o).kl_threshold = 0.1) ∧
    (o.use_q_centering = none → (ADPOConfig.construct o).use_q_centering = true) ∧
    (o.beta_anchor_kl = none → (ADPOConfig.construct o).beta_anchor_kl = 0.0) ∧
    (o.beta_reward = none → (ADPOConfig.construct o).beta_reward = 0.5) ∧
    (o.drop_all_failed_prompts = none →
      (ADPOConfig.construct o).drop_all_failed_prompts = false) := by
  refine ⟨?_, ?_, ?_, ?_, ?_, ?_, ?_⟩ <;>
    intro h <;> simp [ADPOConfig.construct, h]

/-- C3 witness: the documented defaults hold on the construction that omits
every field. -/
theorem c3_remaining_documented_defaults_witness :
    (ADPOConfig.construct {}).anchor_update_mode = "on_policy" ∧
    (ADPOConfig.construct {}).ema_alpha = 0.99 ∧
    (ADPOConfig.construct {}).kl_threshold = 0.1 ∧
    (ADPOConfig.construct {}).use_q_centering = true ∧
    (ADPOConfig.construct {}).beta_anchor_kl = 0.0 ∧
    (ADPOConfig.construct {}).beta_reward = 0.5 ∧
    (ADPOConfig.construct {}).drop_all_failed_prompts = false := by
  have h := c3_remaining_documented_defaults {}
  exact ⟨h.1 rfl, h.2.1 rfl, h.2.2.1 rfl, h.2.2.2.1 rfl, h.2.2.2.2.1 rfl,
    h.2.2.2.2.2.1 rfl, h.2.2.2.2.2.2 rfl⟩

/-- C4 counterexample: the class declares no field named adaptive_tau_beta
and none named adaptive_tau_max, refuting the claim that the schema includes
four adaptive-temperature float fields. -/
theorem c4_missing_adaptive_fields :
    "adaptive_tau_beta" ∉ declaredFieldNames ∧
    "adaptive_tau_max" ∉ declaredFieldNames := by
  decide

/-- C4 (amended): the schema includes two adaptive-temperature float fields,
adaptive_tau_alpha and adaptive_tau_min, together with the boolean switch
use_adaptive_tau; it includes neither adaptive_tau_beta nor
adaptive_tau_max. -/
theorem c4_amended_adaptive_fields :
    "adaptive_tau_alpha" ∈ declaredFieldNames ∧
    "adaptive_tau_min" ∈ declaredFieldNames ∧
    "use_adaptive_tau" ∈ declaredFieldNames ∧
    "adaptive_tau_beta" ∉ declaredFieldNames ∧
    "adaptive_tau_max" ∉ declaredFieldNames ∧
    (∀ o : ADPOOverrides,
      (ADPOConfig.construct o).adaptive_tau_alpha = o.adaptive_tau_alpha.getD 0.5 ∧
      (ADPOConfig.construct o).adaptive_tau_min = o.adaptive_tau_min.getD 0.05) := by
  refine ⟨by decide, by decide, by decide, by decide, by decide, ?_⟩
  intro o
  exact ⟨rfl, rfl⟩

/-- C5: construction performs no validation and computes no derived fields:
for every assignment of override values it succeeds, and each stored field is
exactly the value supplied for that field, or its declared default when
omitted, never computed from another field. -/
theorem c5_no_validation_no_derivation (o : ADPOOverrides) :
    ADPOConfig.tryConstruct o = Except.ok (ADPOConfig.construct o) ∧
    (ADPOConfig.construct o).tau = o.tau.getD declaredTauDefault ∧
    (ADPOConfig.construct o).anchor_update_mode =
      o.anchor_update_mode.getD "on_policy" ∧
    (ADPOConfig.construct o).ema_alpha = o.ema_alpha.getD 0.99 ∧
    (ADPOConfig.construct o).kl_threshold = o.kl_threshold.getD 0.1 ∧
    (ADPOConfig.construct o).use_q_centering = o.use_q_centering.getD true ∧
    (ADPOConfig.construct o).beta_anchor_kl = o.beta_anchor_kl.getD 0.0 ∧
    (ADPOConfig.construct o).use_adaptive_tau = o.use_adaptive_tau.getD true ∧
    (ADPOConfig.construct o).adaptive_tau_alpha = o.adaptive_tau_alpha.getD 0.5 ∧
    (ADPOConfig.construct o).adaptive_tau_min = o.adaptive_tau_min.getD 0.05 ∧
    (ADPOConfig.construct o).beta_reward = o.beta_reward.getD 0.5 ∧
    (ADPOConfig.construct o).drop_all_failed_prompts =
      o.drop_all_failed_prompts.getD false :=
  ⟨rfl, rfl, rfl, rfl, rfl, rfl, rfl, rfl, rfl, rfl, rfl, rfl⟩

/-- C6: construction with any subset of overrides succeeds and yields a fully
populated configuration in which every inherited base field that was not
overridden retains its base default value. -/
theorem c6_inherited_base_defaults (o : ADPOOverrides) :
    ADPOConfig.tryConstruct o = Except.ok (ADPOConfig.construct o) ∧
    (o.output_dir = none →
      (ADPOConfig.construct o).output_dir = grpoBaseDefaults.output_dir) ∧
    (o.num_generations = none →
      (ADPOConfig.construct o).num_generations = grpoBaseDefaults.num_generations) ∧
    (o.beta = none → (ADPOConfig.construct o).beta = grpoBaseDefaults.beta) ∧
    (o.use_liger_kernel = none →
      (ADPOConfig.construct o).use_liger_kernel = grpoBaseDefaults.use_liger_kernel) := by
  refine ⟨rfl, ?_, ?_, ?_, ?_⟩ <;> intro h <;> simp [ADPOConfig.construct, h]

/-- C6 witness: a construction that overrides only tau keeps every inherited
base field at its base default. -/
theorem c6_inherited_base_defaults_witness :
    ADPOConfig.tryConstruct { tau := some 2 } =
      Except.ok (ADPOConfig.construct { tau := some 2 }) ∧
    (ADPOConfig.construct { tau := some 2 }).output_dir =
      grpoBaseDefaults.output_dir ∧
    (ADPOConfig.construct { tau := some 2 }).num_generations =
      grpoBaseDefaults.num_generations ∧
    (ADPOConfig.construct { tau := some 2 }).beta = grpoBaseDefaults.beta ∧
    (ADPOConfig.construct { tau := some 2 }).use_liger_kernel =
      grpoBaseDefaults.use_liger_kernel := by
  have h := c6_inherited_base_defaults { tau := some 2 }
  exact ⟨h.1, h.2.1 rfl, h.2.2.1 rfl, h.2.2.2.1 rfl, h.2.2.2.2 rfl⟩

/-- C7: the configuration object is immutable value data except through
explicit field reassignment: any trace of the artifact's operations that
contains no assignment leaves the object, hence every field, unchanged. -/
theorem c7_reads_do_not_mutate (c : ADPOConfig) (ops : List ConfigOp)
    (h : ∀ op ∈ ops, op.isSet = false) :
    runOps c ops = c := by
  induction ops with
  | nil => rfl
  | cons op rest ih =>
    cases op with
    | get f =>
      exact ih fun op' hop' => h op' (List.mem_cons_of_mem _ hop')
    | set f v =>
      have := h _ (List.mem_cons_self _ _)
      simp [ConfigOp.isSet] at this

/-- C7 witness: a trace of two attribute reads on the default configuration
leaves it unchanged. -/
theorem c7_reads_do_not_mutate_witness :
    runOps (ADPOConfig.construct {})
      [ConfigOp.get FieldName.tau, ConfigOp.get FieldName.beta_reward] =
      ADPOConfig.construct {} :=
  c7_reads_do_not_mutate (ADPOConfig.construct {})
    [ConfigOp.get FieldName.tau, ConfigOp.get FieldName.beta_reward]
    (by
      intro op hop
      simp only [List.mem_cons, List.not_mem_nil, or_false] at hop
      rcases hop with rfl | rfl <;> rfl)

/-- C8 counterexample: the provided source contains exactly one definition of
the configuration class, not three. -/
theorem c8_single_class_definition :
    adpoClassDefinitions.length = 1 ∧ adpoClassDefinitions.length ≠ 3 := by
  decide

/-- C8 (amended): the provided source contains a single definition of the
configuration class; the inconsistencies the spec describes (tau default 1.0
versus 0.8, adaptive-tau fields present or absent) are disagreements between
that one class's docstring and its field declarations, not between three
separate revisions. -/
theorem c8_amended_docstring_inconsistency :
    adpoClassDefinitions.length = 1 ∧
    docstringTauDefault ≠ declaredTauDefault ∧
    docstringTauDefault = 1.0 ∧ declaredTauDefault = 0.8 ∧
    "adaptive_tau_alpha" ∈ declaredFieldNames ∧
    "adaptive_tau_alpha" ∉ docstringFieldNames ∧
    "adaptive_tau_min" ∈ declaredFieldNames ∧
    "adaptive_tau_min" ∉ docstringFieldNames := by
  refine ⟨rfl, by norm_num [docstringTauDefault, declaredTauDefault], rfl, rfl,
    by decide, by decide, by decide, by decide⟩

/-- C9: the adaptive-temperature fields take the concrete defaults left
unspecified by the spec: every construction omitting them yields
use_adaptive_tau = true, adaptive_tau_alpha = 0.5 and
adaptive_tau_min = 0.05. -/
theorem c9_adaptive_defaults (o : ADPOOverrides) :
    (o.use_adaptive_tau = none →
      (ADPOConfig.construct o).use_adaptive_tau = true) ∧
    (o.adaptive_tau_alpha = none →
      (ADPOConfig.construct o).adaptive_tau_alpha = 0.5) ∧
    (o.adaptive_tau_min = none →
      (ADPOConfig.construct o).adaptive_tau_min = 0.05) := by
  refine ⟨?_, ?_, ?_⟩ <;> intro h <;> simp [ADPOConfig.construct, h]

/-- C9 witness: the adaptive-temperature defaults hold on the construction
that omits every field. -/
theorem c9_adaptive_defaults_witness :
    (ADPOConfig.construct {}).use_adaptive_tau = true ∧
    (ADPOConfig.construct {}).adaptive_tau_alpha = 0.5 ∧
    (ADPOConfig.construct {}).adaptive_tau_min = 0.05 := by
  have h := c9_adaptive_defaults {}
  exact ⟨h.1 rfl, h.2.1 rfl, h.2.2 rfl⟩

/-- C10: the Literal annotation on anchor_update_mode is not enforced at
runtime: for every string s and every other choice of overrides, construction
supplying anchor_update_mode = s succeeds and the stored anchor_update_mode
equals s, whether or not s is among the four named values. -/
theorem c10_literal_not_enforced (s : String) (o : ADPOOverrides) :
    ADPOConfig.tryConstruct { o with anchor_update_mode := some s } =
      Except.ok (ADPOConfig.construct { o with anchor_update_mode := some s }) ∧
    (ADPOConfig.construct
        { o with anchor_update_mode := some s }).anchor_update_mode = s :=
  ⟨rfl, rfl⟩

end ADPO
